import Mathlib

/-!
Shallow embedding of the estafette GKE node pool shifter.

The program watches two GKE node pools and, once per cycle, decides whether
to shift one node per zone from a source pool to a target pool.  The Lean
definitions below are translated from the Go sources:

  * `ApplyJitter`, `FindMinAndMax`, `Sum`        — helper file (jitter.go)
  * `GetNodeList`, `determineZones`, `GetZones`  — kubernetes.go
  * `shiftNode`, `runCycle`                      — main.go

External effects (Kubernetes list calls, GCloud resize calls, the random
source) are modelled as explicit inputs; a Go run-time panic is modelled as
`none` of an `Option` result.

`GetZones` uses named returns `(zones []int, err error)` and a naked
`return` inside its per-zone loop, so a caller can observe any pairing of
slice and error: the full distribution with a nil error, a nil slice with
the `determineZones` error, or a partial non-empty prefix together with a
non-nil mid-loop listing error.  A `GetZones` call-site result is therefore
modelled as an unconstrained pair `ZonesResult` of slice and error.
-/

namespace Shifter

/-- Go integer division as used on non-negative operands: `a / b` panics
(`none`) when the divisor is zero, otherwise truncating division. -/
def goDiv (a b : ℕ) : Option ℕ :=
  if b = 0 then none else some (a / b)

/-- Go `rand.Intn n` for a proposed draw `r`: it panics (`none`) when
`n ≤ 0`, otherwise returns a value in `[0, n)`; `r % n` ranges over exactly
those values as `r` ranges over the integers. -/
def randIntn (n r : ℤ) : Option ℤ :=
  if n ≤ 0 then none else some (r % n)

/-- `ApplyJitter` from the helper file:
`deviation := int(0.25 * float64(input)); return input - deviation + rand.Intn(2*deviation)`.
For `|input| < 2^53` the float expression `0.25 * float64(input)` is exact,
so the Go truncating conversion `int(...)` equals truncating division by 4
(`Int.tdiv`).  The random draw is made explicit as `r`. -/
def ApplyJitter (input r : ℤ) : Option ℤ :=
  let deviation := input.tdiv 4
  (randIntn (2 * deviation) r).map (fun k => input - deviation + k)

/-- `FindMinAndMax` from the helper file: `min = a[0]; max = a[0]` followed
by one pass over all of `a`.  Reading `a[0]` of an empty (or nil) slice is a
Go run-time panic, modelled as `none`. -/
def FindMinAndMax (a : List ℤ) : Option (ℤ × ℤ) :=
  match a with
  | [] => none
  | a0 :: _ =>
    some (a.foldl
      (fun p value => (if value < p.1 then value else p.1,
                       if value > p.2 then value else p.2))
      (a0, a0))

/-- `Sum` from the helper file: `result := 0; for _, v := range array { result += v }`. -/
def Sum (array : List ℤ) : ℤ :=
  array.foldl (fun result v => result + v) 0

/-- A node as far as this program inspects it: its
`cloud.google.com/gke-nodepool` label and its
`failure-domain.beta.kubernetes.io/zone` label (a missing label reads as
`""` through a Go map). -/
structure Node where
  pool : String
  zone : String
deriving DecidableEq, Repr

/-- `GetNodeList` (kubernetes.go): list the nodes carrying the pool label
`name`; an empty `name` means no label selector, i.e. all nodes. -/
def GetNodeList (cluster : List Node) (name : String) : List Node :=
  if name = "" then cluster else cluster.filter (fun n => n.pool == name)

/-- `determineZones` (kubernetes.go): list the pool's nodes, collect their
zone labels into a set (`zoneMap`) and return its keys.  Go map iteration
order is unspecified; `List.dedup` picks the first-occurrence order, any
order being equivalent for the properties below. -/
def determineZones (cluster : List Node) (name : String) : List String :=
  ((cluster.filter (fun n => n.pool == name)).map Node.zone).dedup

/-- `GetZones` (kubernetes.go): for each zone of `determineZones`, list the
nodes matching both the pool label and that zone label and record the
count.  Lengths are Go `int`s, hence `ℤ` entries. -/
def GetZones (cluster : List Node) (name : String) : List ℤ :=
  (determineZones cluster name).map
    (fun zone => ((cluster.filter (fun n => n.pool == name && n.zone == zone)).length : ℤ))

/-- A GCloud call issued by the shift executor. -/
inductive CloudCall where
  | setNodePoolSize (pool : String) (size : ℤ)
deriving DecidableEq, Repr

/-- The pair a `GetZones` call yields at its call site, mirroring its Go
named returns `(zones []int, err error)`: the slice and the error vary
independently — the full distribution with a nil error, the nil slice with
the `determineZones` error, or a partial non-empty prefix together with a
non-nil mid-loop listing error (the naked `return` inside the loop). -/
structure ZonesResult where
  zones : List ℤ
  err : Option String
deriving DecidableEq, Repr

/-- Responses of the external services during one `shiftNode` call:
the result of `g.SetNodePoolSize(toName, toNewSize)` (`some e` = error),
the result of `k.GetZones(toName)`, and the result of
`g.SetNodePoolSize(fromName, fromNewSize)`. -/
structure ShiftEnv where
  growErr : Option String
  getZonesTo : ZonesResult
  shrinkErr : Option String
deriving DecidableEq, Repr

/-- `shiftNode` (main.go): grow the target pool to `toCurrentSize + 1`,
re-fetch its zone distribution (the fetch error is stored in the named
return `err` but never checked), abort if
`expectedNodeCount < actualNodeCount` — the bare `return` then yields
whatever `err` the re-fetch left — otherwise shrink the source pool to
`fromCurrentSize - 1`, overwriting `err` with the shrink call's result.
Returns the Go `err` result together with the list of `SetNodePoolSize`
calls issued, in order. -/
def shiftNode (env : ShiftEnv) (fromName toName : String)
    (fromCurrentSize toCurrentSize : ℤ) : Option String × List CloudCall :=
  let toNewSize := toCurrentSize + 1
  match env.growErr with
  | some e => (some e, [CloudCall.setNodePoolSize toName toNewSize])
  | none =>
    let zoneInfo := env.getZonesTo.zones
    let actualNodeCount := Sum zoneInfo
    let amountOfZones : ℤ := zoneInfo.length
    let expectedNodeCount := toNewSize * amountOfZones
    if expectedNodeCount < actualNodeCount then
      (env.getZonesTo.err, [CloudCall.setNodePoolSize toName toNewSize])
    else
      let fromNewSize := fromCurrentSize - 1
      (env.shrinkErr,
        [CloudCall.setNodePoolSize toName toNewSize,
         CloudCall.setNodePoolSize fromName fromNewSize])

/-- The rebalance decision of the control loop (main.go):
`nodePoolFromSize > *nodePoolFromMinNode && len(nodesFrom.Items) > 0`,
where `nodePoolFromSize` is the already-computed per-zone source size. -/
def rebalanceDecision (sourceNodeCount perZoneSourceSize : ℕ)
    (minNodesPerZone : ℤ) : Bool :=
  decide (minNodesPerZone < (perZoneSourceSize : ℤ)) && decide (0 < sourceNodeCount)

/-- Responses of the external services during one cycle of the control
loop: `GetNodeList(from)`, the decision-step `GetZones(to)`, the two
re-fetches `GetZones(to)` / `GetZones(from)` of the shifting step, and the
environment of the inner `shiftNode` call. -/
structure CycleEnv where
  nodesFrom : Except String (List Node)
  zonesToDecision : ZonesResult
  zonesToShift : ZonesResult
  zonesFromShift : ZonesResult
  shiftEnv : ShiftEnv
deriving Repr

/-- One iteration of the control loop goroutine (main.go): fetch the source
node list and the target zone distribution (either call's non-nil error
gives status `"failed"`), compute
`nodePoolFromSize := len(nodesFrom.Items) / len(zoneInfo)`
(a division that panics when no zones were observed), evaluate the decision,
and on a positive decision re-fetch both pools' distributions (their errors
discarded with `_`, only the slices used), take the maxima via
`FindMinAndMax` (which panics on an empty slice) and call `shiftNode`,
mapping a non-nil error to `"failed"` and a nil error to `"shifted"`.
Returns `none` for a panic, otherwise the status string recorded in the
metrics counter and the cloud calls issued. -/
def runCycle (env : CycleEnv) (fromName toName : String) (minNode : ℤ) :
    Option (String × List CloudCall) :=
  match env.nodesFrom with
  | .error _ => some ("failed", [])
  | .ok nodesFromItems =>
    match env.zonesToDecision.err with
    | some _ => some ("failed", [])
    | none =>
      let zoneInfo := env.zonesToDecision.zones
      match goDiv nodesFromItems.length zoneInfo.length with
      | none => none
      | some nodePoolFromSize =>
        if rebalanceDecision nodesFromItems.length nodePoolFromSize minNode then
          let nodesTo := env.zonesToShift.zones
          match FindMinAndMax nodesTo with
          | none => none
          | some maxToPair =>
            let nodesFromZones := env.zonesFromShift.zones
            match FindMinAndMax nodesFromZones with
            | none => none
            | some maxFromPair =>
              let r := shiftNode env.shiftEnv fromName toName maxFromPair.2 maxToPair.2
              some (if r.1.isSome then "failed" else "shifted", r.2)
        else
          some ("skipped", [])

/-- The abort condition of `shiftNode`'s verification step, in terms of the
environment: `expectedNodeCount < actualNodeCount` after the grow. -/
def verificationAborts (env : ShiftEnv) (toCurrentSize : ℤ) : Prop :=
  (toCurrentSize + 1) * (env.getZonesTo.zones.length : ℤ) <
    Sum env.getZonesTo.zones

instance (env : ShiftEnv) (t : ℤ) : Decidable (verificationAborts env t) := by
  unfold verificationAborts; infer_instance

lemma shiftNode_of_growErr (env : ShiftEnv) (fromName toName : String)
    (fromCurrentSize toCurrentSize : ℤ) (e : String) (hgrow : env.growErr = some e) :
    shiftNode env fromName toName fromCurrentSize toCurrentSize =
      (some e, [CloudCall.setNodePoolSize toName (toCurrentSize + 1)]) := by
  simp [shiftNode, hgrow]

lemma shiftNode_of_abort (env : ShiftEnv) (fromName toName : String)
    (fromCurrentSize toCurrentSize : ℤ) (hgrow : env.growErr = none)
    (habort : verificationAborts env toCurrentSize) :
    shiftNode env fromName toName fromCurrentSize toCurrentSize =
      (env.getZonesTo.err, [CloudCall.setNodePoolSize toName (toCurrentSize + 1)]) := by
  rw [verificationAborts] at habort
  simp only [shiftNode, hgrow]
  rw [if_pos habort]

lemma shiftNode_of_no_abort (env : ShiftEnv) (fromName toName : String)
    (fromCurrentSize toCurrentSize : ℤ) (hgrow : env.growErr = none)
    (habort : ¬ verificationAborts env toCurrentSize) :
    shiftNode env fromName toName fromCurrentSize toCurrentSize =
      (env.shrinkErr,
        [CloudCall.setNodePoolSize toName (toCurrentSize + 1),
         CloudCall.setNodePoolSize fromName (fromCurrentSize - 1)]) := by
  rw [verificationAborts] at habort
  simp only [shiftNode, hgrow]
  rw [if_neg habort]

lemma Sum_eq_sum (l : List ℤ) : Sum l = l.sum := by
  simp [Sum, List.sum_eq_foldl]

lemma sum_map_intCast {α : Type} (g : α → ℕ) (l : List α) :
    (l.map (fun a => ((g a : ℕ) : ℤ))).sum = ((l.map g).sum : ℤ) := by
  induction l with
  | nil => simp
  | cons a t ih => simp [ih]

lemma runCycle_of_nodesFrom_error (env : CycleEnv) (fromName toName : String)
    (minNode : ℤ) (e : String) (h : env.nodesFrom = .error e) :
    runCycle env fromName toName minNode = some ("failed", []) := by
  simp [runCycle, h]

lemma runCycle_of_zonesToDecision_error (env : CycleEnv) (fromName toName : String)
    (minNode : ℤ) (items : List Node) (e : String) (h1 : env.nodesFrom = .ok items)
    (h2 : env.zonesToDecision.err = some e) :
    runCycle env fromName toName minNode = some ("failed", []) := by
  simp [runCycle, h1, h2]

lemma runCycle_shift_branch (env : CycleEnv) (fromName toName : String) (minNode : ℤ)
    (items : List Node) (pT pF : ℤ × ℤ)
    (h1 : env.nodesFrom = .ok items) (h2 : env.zonesToDecision.err = none)
    (h3 : env.zonesToDecision.zones.length ≠ 0)
    (h4 : rebalanceDecision items.length
      (items.length / env.zonesToDecision.zones.length) minNode = true)
    (hT : FindMinAndMax env.zonesToShift.zones = some pT)
    (hF : FindMinAndMax env.zonesFromShift.zones = some pF) :
    runCycle env fromName toName minNode =
      some
        (if (shiftNode env.shiftEnv fromName toName pF.2 pT.2).1.isSome
          then "failed" else "shifted",
         (shiftNode env.shiftEnv fromName toName pF.2 pT.2).2) := by
  simp [runCycle, h1, h2, goDiv, h3, h4, hT, hF]

example : FindMinAndMax [3, 7, 1, 9] = some (1, 9) := by decide
example : FindMinAndMax [5] = some (5, 5) := by decide
example : Sum [2, 0, 4] = 6 := by decide
example : Sum [] = 0 := by decide
example : GetZones [⟨"p", "a"⟩, ⟨"p", "b"⟩, ⟨"p", "a"⟩, ⟨"q", "a"⟩] "p" = [1, 2] := by decide

/-- C1: for every fetched source-pool node count, every target-pool zone
count `zoneCount > 0` and every configured threshold, the driver computes
`perZoneSourceSize = sourceNodeCount / zoneCount` by integer division and
decides to shift iff `perZoneSourceSize > minNodesPerZone` and
`sourceNodeCount > 0`; in particular the decision is false when
`sourceNodeCount = 0`, and false when `perZoneSourceSize` equals the
threshold exactly. -/
theorem C1_rebalance_decision (sourceNodeCount zoneCount : ℕ) (minNodesPerZone : ℤ)
    (hz : 0 < zoneCount) :
    goDiv sourceNodeCount zoneCount = some (sourceNodeCount / zoneCount) ∧
    (rebalanceDecision sourceNodeCount (sourceNodeCount / zoneCount) minNodesPerZone = true ↔
      minNodesPerZone < ((sourceNodeCount / zoneCount : ℕ) : ℤ) ∧ 0 < sourceNodeCount) ∧
    (sourceNodeCount = 0 →
      rebalanceDecision sourceNodeCount (sourceNodeCount / zoneCount) minNodesPerZone = false) ∧
    (((sourceNodeCount / zoneCount : ℕ) : ℤ) = minNodesPerZone →
      rebalanceDecision sourceNodeCount (sourceNodeCount / zoneCount) minNodesPerZone = false) := by
  refine ⟨by simp [goDiv, hz.ne'], ?_, ?_, ?_⟩
  · simp [rebalanceDecision]
  · intro h0
    subst h0
    simp [rebalanceDecision]
  · intro heq
    simp [rebalanceDecision, heq]

/-- Witness for C1 at `sourceNodeCount = 9`, `zoneCount = 3`,
`minNodesPerZone = 2`: per-zone size `3 > 2` and `9 > 0`, so the decision
is to shift. -/
theorem C1_rebalance_decision_witness :
    goDiv 9 3 = some (9 / 3) ∧ rebalanceDecision 9 (9 / 3) 2 = true :=
  ⟨(C1_rebalance_decision 9 3 2 (by decide)).1,
   ((C1_rebalance_decision 9 3 2 (by decide)).2.1).mpr (by decide)⟩

/-- C2: in any execution of `shiftNode` whose grow step succeeded and whose
verification observes `expectedNodeCount < actualNodeCount`, the only cloud
call issued is the grow resize: the shrink resize on the source pool is
never invoked. -/
theorem C2_verification_failure_blocks_shrink (env : ShiftEnv) (fromName toName : String)
    (fromCurrentSize toCurrentSize : ℤ) (hgrow : env.growErr = none)
    (habort : verificationAborts env toCurrentSize) :
    (shiftNode env fromName toName fromCurrentSize toCurrentSize).2 =
      [CloudCall.setNodePoolSize toName (toCurrentSize + 1)] := by
  rw [shiftNode_of_abort env fromName toName fromCurrentSize toCurrentSize hgrow habort]

/-- Witness for C2: grow succeeds, the re-fetched target distribution is
`[5]` while `toNewSize * zones = 2 * 1 = 2 < 5`, and only the grow call is
issued. -/
theorem C2_verification_failure_blocks_shrink_witness :
    (shiftNode ⟨none, ⟨[5], none⟩, none⟩ "from" "to" 3 1).2 =
      [CloudCall.setNodePoolSize "to" 2] :=
  C2_verification_failure_blocks_shrink ⟨none, ⟨[5], none⟩, none⟩ "from" "to" 3 1
    rfl (by decide)

/-- C3: `shiftNode` always issues the grow resize of the target pool to
`toCurrentSize + 1` first; the shrink of the source pool to
`fromCurrentSize - 1` is issued exactly when the grow succeeded and the
verification did not abort; no precondition restricts `fromCurrentSize`,
so with `fromCurrentSize = 0` the source pool is resized to `-1`. -/
theorem C3_two_phase_resize (env : ShiftEnv) (fromName toName : String)
    (toCurrentSize : ℤ) :
    (∀ fromCurrentSize,
      (shiftNode env fromName toName fromCurrentSize toCurrentSize).2.head? =
        some (CloudCall.setNodePoolSize toName (toCurrentSize + 1))) ∧
    (∀ fromCurrentSize,
      (shiftNode env fromName toName fromCurrentSize toCurrentSize).2 =
        [CloudCall.setNodePoolSize toName (toCurrentSize + 1),
         CloudCall.setNodePoolSize fromName (fromCurrentSize - 1)] ↔
      (env.growErr = none ∧ ¬ verificationAborts env toCurrentSize)) ∧
    (env.growErr = none → ¬ verificationAborts env toCurrentSize →
      (shiftNode env fromName toName 0 toCurrentSize).2 =
        [CloudCall.setNodePoolSize toName (toCurrentSize + 1),
         CloudCall.setNodePoolSize fromName (-1)]) := by
  have hmain : ∀ fromCurrentSize,
      (shiftNode env fromName toName fromCurrentSize toCurrentSize).2 =
        [CloudCall.setNodePoolSize toName (toCurrentSize + 1),
         CloudCall.setNodePoolSize fromName (fromCurrentSize - 1)] ↔
      (env.growErr = none ∧ ¬ verificationAborts env toCurrentSize) := by
    intro f
    rcases hg : env.growErr with _ | e
    · by_cases hab : verificationAborts env toCurrentSize
      · rw [shiftNode_of_abort env fromName toName f toCurrentSize hg hab]
        simp [hab]
      · rw [shiftNode_of_no_abort env fromName toName f toCurrentSize hg hab]
        simp [hab]
    · rw [shiftNode_of_growErr env fromName toName f toCurrentSize e hg]
      simp
  refine ⟨?_, hmain, ?_⟩
  · intro f
    rcases hg : env.growErr with _ | e
    · by_cases hab : verificationAborts env toCurrentSize
      · rw [shiftNode_of_abort env fromName toName f toCurrentSize hg hab]
        rfl
      · rw [shiftNode_of_no_abort env fromName toName f toCurrentSize hg hab]
        rfl
    · rw [shiftNode_of_growErr env fromName toName f toCurrentSize e hg]
      rfl
  · intro hg hab
    have h0 : (0 : ℤ) - 1 = -1 := by norm_num
    rw [← h0]
    exact (hmain 0).mpr ⟨hg, hab⟩

/-- Witness for C3: with a successful grow, re-fetched distribution `[2]`
(no abort since `2 * 1 = 2 ≥ 2`) and `fromCurrentSize = 0`, the calls are
the grow to `2` followed by the shrink to `-1`. -/
theorem C3_two_phase_resize_witness :
    (shiftNode ⟨none, ⟨[2], none⟩, none⟩ "from" "to" 0 1).2 =
      [CloudCall.setNodePoolSize "to" 2, CloudCall.setNodePoolSize "from" (-1)] :=
  (C3_two_phase_resize ⟨none, ⟨[2], none⟩, none⟩ "from" "to" 1).2.2 rfl (by decide)

/-- C4: whenever the grow-step resize call returns an error, `shiftNode`
returns exactly that error having issued only the grow call, and a cycle
that reached the shifting step with such an error records the outcome
`"failed"`. -/
theorem C4_grow_error_fails_cycle :
    (∀ (senv : ShiftEnv) (fromName toName : String) (fromCurrentSize toCurrentSize : ℤ)
        (e : String), senv.growErr = some e →
      shiftNode senv fromName toName fromCurrentSize toCurrentSize =
        (some e, [CloudCall.setNodePoolSize toName (toCurrentSize + 1)])) ∧
    (∀ (env : CycleEnv) (fromName toName : String) (minNode : ℤ) (items : List Node)
        (pT pF : ℤ × ℤ) (e : String),
      env.nodesFrom = .ok items → env.zonesToDecision.err = none →
      env.zonesToDecision.zones.length ≠ 0 →
      rebalanceDecision items.length
        (items.length / env.zonesToDecision.zones.length) minNode = true →
      FindMinAndMax env.zonesToShift.zones = some pT →
      FindMinAndMax env.zonesFromShift.zones = some pF →
      env.shiftEnv.growErr = some e →
      runCycle env fromName toName minNode =
        some ("failed", [CloudCall.setNodePoolSize toName (pT.2 + 1)])) := by
  constructor
  · exact fun senv fn tn f t e hg => shiftNode_of_growErr senv fn tn f t e hg
  · intro env fn tn m items pT pF e h1 h2 h3 h4 hT hF hg
    rw [runCycle_shift_branch env fn tn m items pT pF h1 h2 h3 h4 hT hF,
        shiftNode_of_growErr env.shiftEnv fn tn pF.2 pT.2 e hg]
    rfl

/-- Witness for C4: the grow resize fails with "quota exceeded"; the cycle
records `"failed"` and only the grow call was issued. -/
theorem C4_grow_error_fails_cycle_witness :
    runCycle
      ⟨Except.ok [⟨"vm", "a"⟩], ⟨[1], none⟩, ⟨[1], none⟩, ⟨[1], none⟩,
        ⟨some "quota exceeded", ⟨[], none⟩, none⟩⟩
      "vm" "preempt" 0 =
      some ("failed", [CloudCall.setNodePoolSize "preempt" 2]) :=
  C4_grow_error_fails_cycle.2
    ⟨Except.ok [⟨"vm", "a"⟩], ⟨[1], none⟩, ⟨[1], none⟩, ⟨[1], none⟩,
      ⟨some "quota exceeded", ⟨[], none⟩, none⟩⟩
    "vm" "preempt" 0 [⟨"vm", "a"⟩] (1, 1) (1, 1) "quota exceeded"
    rfl rfl (by decide) (by decide) (by decide) (by decide) rfl

/-- A concrete cycle environment in which the decision is positive and the
verification step observes more nodes than expected: source pool `[4]` in
one zone, target pool `[1]`, re-fetched target distribution `[5]` (full
success, nil error) against `toNewSize * zones = 2 * 1 = 2`. -/
def envC5 : CycleEnv :=
  ⟨Except.ok [⟨"vm", "a"⟩, ⟨"vm", "a"⟩, ⟨"vm", "a"⟩, ⟨"vm", "a"⟩],
   ⟨[1], none⟩, ⟨[1], none⟩, ⟨[4], none⟩,
   ⟨none, ⟨[5], none⟩, none⟩⟩

/-- Like `envC5`, but the verification re-fetch fails mid-loop: it returns
the partial slice `[5]` together with a non-nil listing error. -/
def envC5f : CycleEnv :=
  ⟨Except.ok [⟨"vm", "a"⟩, ⟨"vm", "a"⟩, ⟨"vm", "a"⟩, ⟨"vm", "a"⟩],
   ⟨[1], none⟩, ⟨[1], none⟩, ⟨[4], none⟩,
   ⟨none, ⟨[5], some "zone b listing failed"⟩, none⟩⟩

/-- C5 counterexample: in `envC5` the executor aborts at the
grow-verification step (`expected 2 < actual 5`), yet the cycle's recorded
outcome is `"shifted"` — not `"skipped"` or `"failed"` — because the
fully-successful re-fetch left a nil `err` and the abort's bare `return`
returns it. -/
theorem C5_counterexample :
    verificationAborts envC5.shiftEnv 1 ∧
    runCycle envC5 "vm" "preempt" 0 =
      some ("shifted", [CloudCall.setNodePoolSize "preempt" 2]) :=
  ⟨by decide, by decide⟩

/-- C5 (amended): for every cycle in which the Shift Executor aborts at the
grow-verification step, only the grow call is issued and the recorded
outcome is `"failed"` when the verification re-fetch left a non-nil error
and `"shifted"` when it left a nil error — never `"skipped"`; in
particular a cycle whose abort follows a fully-successful re-fetch is
counted as a successful shift although no shrink occurred. -/
theorem C5_amended_abort_outcome (env : CycleEnv) (fromName toName : String)
    (minNode : ℤ) (items : List Node) (pT pF : ℤ × ℤ)
    (h1 : env.nodesFrom = .ok items) (h2 : env.zonesToDecision.err = none)
    (h3 : env.zonesToDecision.zones.length ≠ 0)
    (h4 : rebalanceDecision items.length
      (items.length / env.zonesToDecision.zones.length) minNode = true)
    (hT : FindMinAndMax env.zonesToShift.zones = some pT)
    (hF : FindMinAndMax env.zonesFromShift.zones = some pF)
    (hgrow : env.shiftEnv.growErr = none)
    (habort : verificationAborts env.shiftEnv pT.2) :
    runCycle env fromName toName minNode =
      some ((if env.shiftEnv.getZonesTo.err.isSome then "failed" else "shifted"),
        [CloudCall.setNodePoolSize toName (pT.2 + 1)]) ∧
    (env.shiftEnv.getZonesTo.err = none →
      runCycle env fromName toName minNode =
        some ("shifted", [CloudCall.setNodePoolSize toName (pT.2 + 1)])) := by
  have hbase := runCycle_shift_branch env fromName toName minNode items pT pF
    h1 h2 h3 h4 hT hF
  rw [shiftNode_of_abort env.shiftEnv fromName toName pF.2 pT.2 hgrow habort] at hbase
  refine ⟨hbase, ?_⟩
  intro hnil
  rw [hbase, hnil]
  rfl

/-- Witness for the amended C5: at `envC5` (nil re-fetch error) the abort
yields outcome `"shifted"`; at `envC5f` (partial slice with a mid-loop
error) the same abort yields outcome `"failed"`. -/
theorem C5_amended_abort_outcome_witness :
    runCycle envC5 "vm" "preempt" 0 =
      some ("shifted", [CloudCall.setNodePoolSize "preempt" 2]) ∧
    runCycle envC5f "vm" "preempt" 0 =
      some ("failed", [CloudCall.setNodePoolSize "preempt" 2]) :=
  ⟨(C5_amended_abort_outcome envC5 "vm" "preempt" 0
      [⟨"vm", "a"⟩, ⟨"vm", "a"⟩, ⟨"vm", "a"⟩, ⟨"vm", "a"⟩] (1, 1) (4, 4)
      rfl rfl (by decide) (by decide) (by decide) (by decide) rfl (by decide)).2 rfl,
   (C5_amended_abort_outcome envC5f "vm" "preempt" 0
      [⟨"vm", "a"⟩, ⟨"vm", "a"⟩, ⟨"vm", "a"⟩, ⟨"vm", "a"⟩] (1, 1) (4, 4)
      rfl rfl (by decide) (by decide) (by decide) (by decide) rfl (by decide)).1⟩

/-- A concrete cycle environment whose Shifting-state target re-fetch
fails mid-loop (partial slice `[1]` with error "refetch failed") while
everything else succeeds: the driver discards the error with `_` and the
cycle completes normally. -/
def envC6 : CycleEnv :=
  ⟨Except.ok [⟨"vm", "a"⟩, ⟨"vm", "a"⟩, ⟨"vm", "a"⟩, ⟨"vm", "a"⟩],
   ⟨[1], none⟩, ⟨[1], some "refetch failed"⟩, ⟨[4], none⟩,
   ⟨none, ⟨[2], none⟩, none⟩⟩

/-- C6 counterexample: two zone-distribution errors that never reach the
Driver.  First, the verification-step `GetZones` fails mid-loop with the
partial slice `[1]` and the error "zone listing failed"; the check
`2 < 1` fails, the shrink proceeds, `err` is overwritten, and `shiftNode`
returns a nil error.  Second, in `envC6` a Shifting-state re-fetch error
"refetch failed" is discarded with `_` and the cycle is recorded
`"shifted"` with no trace of it. -/
theorem C6_counterexample :
    (shiftNode ⟨none, ⟨[1], some "zone listing failed"⟩, none⟩ "vm" "preempt" 3 1 =
      (none, [CloudCall.setNodePoolSize "preempt" 2,
              CloudCall.setNodePoolSize "vm" 2])) ∧
    runCycle envC6 "vm" "preempt" 0 =
      some ("shifted", [CloudCall.setNodePoolSize "preempt" 2,
                        CloudCall.setNodePoolSize "vm" 3]) :=
  ⟨by decide, by decide⟩

/-- C6 (amended): errors from the Idle-state fetches (node listing and
decision-step zone query) and from the two resize calls are propagated to
the Driver and reflected in the cycle outcome, and a verification-step
`GetZones` error is returned to the Driver when the verification aborts;
but whenever the verification check passes, that `GetZones` error is
silently swallowed (the shrink proceeds and `err` is overwritten by the
shrink call's result), and the Shifting-state re-fetch errors are
discarded with `_`, having no effect on the cycle at all. -/
theorem C6_amended_error_propagation :
    (∀ (env : CycleEnv) (fromName toName : String) (minNode : ℤ) (e : String),
      env.nodesFrom = .error e →
      runCycle env fromName toName minNode = some ("failed", [])) ∧
    (∀ (env : CycleEnv) (fromName toName : String) (minNode : ℤ) (items : List Node)
        (e : String), env.nodesFrom = .ok items → env.zonesToDecision.err = some e →
      runCycle env fromName toName minNode = some ("failed", [])) ∧
    (∀ (senv : ShiftEnv) (fromName toName : String) (f t : ℤ) (e : String),
      senv.growErr = some e → (shiftNode senv fromName toName f t).1 = some e) ∧
    (∀ (senv : ShiftEnv) (fromName toName : String) (f t : ℤ) (e : String),
      senv.growErr = none → ¬ verificationAborts senv t → senv.shrinkErr = some e →
      (shiftNode senv fromName toName f t).1 = some e) ∧
    (∀ (senv : ShiftEnv) (fromName toName : String) (f t : ℤ),
      senv.growErr = none → verificationAborts senv t →
      (shiftNode senv fromName toName f t).1 = senv.getZonesTo.err) ∧
    (∀ (senv : ShiftEnv) (fromName toName : String) (f t : ℤ),
      senv.growErr = none → ¬ verificationAborts senv t →
      shiftNode senv fromName toName f t =
        (senv.shrinkErr,
          [CloudCall.setNodePoolSize toName (t + 1),
           CloudCall.setNodePoolSize fromName (f - 1)])) ∧
    (∀ (nodesFrom : Except String (List Node)) (zd : ZonesResult)
        (zsT zsF : List ℤ) (eT eF : Option String) (senv : ShiftEnv)
        (fromName toName : String) (minNode : ℤ),
      runCycle ⟨nodesFrom, zd, ⟨zsT, eT⟩, ⟨zsF, eF⟩, senv⟩ fromName toName minNode =
        runCycle ⟨nodesFrom, zd, ⟨zsT, none⟩, ⟨zsF, none⟩, senv⟩
          fromName toName minNode) := by
  refine ⟨?_, ?_, ?_, ?_, ?_, ?_, ?_⟩
  · exact fun env fn tn m e h => runCycle_of_nodesFrom_error env fn tn m e h
  · exact fun env fn tn m items e h1 h2 =>
      runCycle_of_zonesToDecision_error env fn tn m items e h1 h2
  · intro senv fn tn f t e hg
    rw [shiftNode_of_growErr senv fn tn f t e hg]
  · intro senv fn tn f t e hg hab hshrink
    rw [shiftNode_of_no_abort senv fn tn f t hg hab]
    exact hshrink
  · intro senv fn tn f t hg hab
    rw [shiftNode_of_abort senv fn tn f t hg hab]
  · exact fun senv fn tn f t hg hab => shiftNode_of_no_abort senv fn tn f t hg hab
  · intro nodesFrom zd zsT zsF eT eF senv fn tn m
    rfl

/-- Witness for the amended C6: with the verification-step `GetZones`
failing mid-loop (partial slice `[1]`, error "boom") and the check passing,
the shrink proceeds and the error "boom" is replaced by the shrink call's
own result "shrink denied". -/
theorem C6_amended_error_propagation_witness :
    shiftNode ⟨none, ⟨[1], some "boom"⟩, some "shrink denied"⟩ "vm" "preempt" 1 1 =
      (some "shrink denied",
        [CloudCall.setNodePoolSize "preempt" 2, CloudCall.setNodePoolSize "vm" 0]) :=
  C6_amended_error_propagation.2.2.2.2.2.1
    ⟨none, ⟨[1], some "boom"⟩, some "shrink denied"⟩ "vm" "preempt" 1 1 rfl (by decide)

/-- C7: for every cluster snapshot (all listings consistent) and every
non-empty pool name, the zone distribution of `GetZones` sums (via `Sum`)
to the number of nodes matching the pool's label as listed with no zone
filter: the per-zone counts of the second pass partition the pool's
nodes over the zones discovered in the first pass. -/
theorem C7_zones_sum_partition (cluster : List Node) (name : String)
    (hname : name ≠ "") :
    Sum (GetZones cluster name) = ((GetNodeList cluster name).length : ℤ) := by
  have hP : GetNodeList cluster name = cluster.filter (fun n => n.pool == name) := by
    simp [GetNodeList, hname]
  have hfilter : ∀ z : String,
      cluster.filter (fun n => n.pool == name && n.zone == z) =
        (cluster.filter (fun n => n.pool == name)).filter (fun n => n.zone == z) := by
    intro z
    calc cluster.filter (fun n => n.pool == name && n.zone == z)
        = cluster.filter (fun n => n.zone == z && n.pool == name) :=
          List.filter_congr (fun n _ => Bool.and_comm (n.pool == name) (n.zone == z))
      _ = (cluster.filter (fun n => n.pool == name)).filter (fun n => n.zone == z) :=
          (List.filter_filter _ _).symm
  have hcount : ∀ z : String,
      ((cluster.filter (fun n => n.pool == name)).filter (fun n => n.zone == z)).length =
        List.count z ((cluster.filter (fun n => n.pool == name)).map Node.zone) := by
    intro z
    rw [List.count_eq_countP, List.countP_map, List.countP_eq_length_filter]
    rfl
  have hmap : GetZones cluster name =
      ((cluster.filter (fun n => n.pool == name)).map Node.zone).dedup.map
        (fun z =>
          ((List.count z ((cluster.filter (fun n => n.pool == name)).map Node.zone) : ℕ) :
            ℤ)) := by
    unfold GetZones determineZones
    refine List.map_congr_left ?_
    intro z hz
    rw [hfilter z, hcount z]
  rw [hmap, hP, Sum_eq_sum, sum_map_intCast, List.sum_map_count_dedup_eq_length,
    List.length_map]

/-- Witness for C7 on a concrete cluster: pool "p" has nodes in zones
"a", "b", "a" and an unrelated pool "q" has one node; the distribution
sums to 3, the number of "p" nodes. -/
theorem C7_zones_sum_partition_witness :
    ("p" : String) ≠ "" ∧
    Sum (GetZones [⟨"p", "a"⟩, ⟨"p", "b"⟩, ⟨"p", "a"⟩, ⟨"q", "a"⟩] "p") =
      ((GetNodeList [⟨"p", "a"⟩, ⟨"p", "b"⟩, ⟨"p", "a"⟩, ⟨"q", "a"⟩] "p").length : ℤ) :=
  ⟨by decide,
   C7_zones_sum_partition [⟨"p", "a"⟩, ⟨"p", "b"⟩, ⟨"p", "a"⟩, ⟨"q", "a"⟩] "p" (by decide)⟩

/-- C8: when the target pool's zone distribution fetched for the decision
is empty, the driver's per-zone size computation
`len(nodesFrom.Items) / len(zoneInfo)` divides by zero unguarded: the
division panics and the cycle has no outcome at all — there is no explicit
error path for zero observed zones. -/
theorem C8_unguarded_division_by_zone_count (env : CycleEnv) (fromName toName : String)
    (minNode : ℤ) (items : List Node)
    (h1 : env.nodesFrom = .ok items) (h2 : env.zonesToDecision.err = none)
    (h3 : env.zonesToDecision.zones = []) :
    goDiv items.length ([] : List ℤ).length = none ∧
    runCycle env fromName toName minNode = none := by
  refine ⟨rfl, ?_⟩
  simp [runCycle, h1, h2, h3, goDiv]

/-- Witness for C8: one source node, an empty target zone distribution —
the cycle panics. -/
theorem C8_unguarded_division_by_zone_count_witness :
    runCycle
      ⟨Except.ok [⟨"vm", "a"⟩], ⟨[], none⟩, ⟨[], none⟩, ⟨[], none⟩,
        ⟨none, ⟨[], none⟩, none⟩⟩
      "vm" "preempt" 0 = none :=
  (C8_unguarded_division_by_zone_count
    ⟨Except.ok [⟨"vm", "a"⟩], ⟨[], none⟩, ⟨[], none⟩, ⟨[], none⟩,
      ⟨none, ⟨[], none⟩, none⟩⟩
    "vm" "preempt" 0 [⟨"vm", "a"⟩] rfl rfl rfl).2

/-- C9 counterexample: at base value `2` the computed deviation is `0` and
`rand.Intn 0` panics, so `ApplyJitter` returns no value at all — in
particular not a value in `[v - 0.25v, v + 0.25v)`. -/
theorem C9_counterexample : ApplyJitter 2 0 = none := by decide

/-- C9 (amended): for every base value `v` with `4 ≤ v < 2^53` — so the
float expression is exact and the truncated deviation `v / 4` is
positive — and every random draw, `ApplyJitter` returns a value `out` in
`[v - v/4, v + v/4)`, a subrange of `[v - 0.25v, v + 0.25v)` (the
containment stated integrally as `3v ≤ 4·out < 5v`); and for every `v`
with `0 ≤ v ≤ 3` the deviation truncates to `0` and the call panics
inside `rand.Intn` instead of returning any value. -/
theorem C9_amended_jitter_range (v r : ℤ) :
    (4 ≤ v → v < 2 ^ 53 →
      ∃ out, ApplyJitter v r = some out ∧
        v - v / 4 ≤ out ∧ out < v + v / 4 ∧ 3 * v ≤ 4 * out ∧ 4 * out < 5 * v) ∧
    (0 ≤ v → v ≤ 3 → ApplyJitter v r = none) := by
  constructor
  · intro h4 h53
    have htd : v.tdiv 4 = v / 4 := Int.tdiv_eq_ediv (by omega) (by norm_num)
    have hdpos : 0 < 2 * (v / 4) := by omega
    have hr0 : 0 ≤ r % (2 * (v / 4)) := Int.emod_nonneg r (by omega)
    have hr1 : r % (2 * (v / 4)) < 2 * (v / 4) := Int.emod_lt_of_pos r hdpos
    refine ⟨v - v / 4 + r % (2 * (v / 4)), ?_, by omega, by omega, by omega, by omega⟩
    show (randIntn (2 * v.tdiv 4) r).map (fun k => v - v.tdiv 4 + k) =
      some (v - v / 4 + r % (2 * (v / 4)))
    rw [htd]
    simp only [randIntn]
    rw [if_neg (by omega : ¬ 2 * (v / 4) ≤ 0)]
    rfl
  · intro h0 h3
    have htd : v.tdiv 4 = v / 4 := Int.tdiv_eq_ediv h0 (by norm_num)
    have hz : v / 4 = 0 := by omega
    show (randIntn (2 * v.tdiv 4) r).map (fun k => v - v.tdiv 4 + k) = none
    rw [htd, hz]
    rfl

/-- Witness for the amended C9: the range at the default check interval
`300` with draw `7`, and the panic at base value `3` with draw `5`. -/
theorem C9_amended_jitter_range_witness :
    (∃ out, ApplyJitter 300 7 = some out ∧
      300 - 300 / 4 ≤ out ∧ out < 300 + 300 / 4 ∧
      3 * 300 ≤ 4 * out ∧ 4 * out < 5 * 300) ∧
    ApplyJitter 3 5 = none :=
  ⟨(C9_amended_jitter_range 300 7).1 (by norm_num) (by norm_num),
   (C9_amended_jitter_range 3 5).2 (by norm_num) (by norm_num)⟩

/-- C10: `FindMinAndMax` reads element 0 unconditionally, so on an empty
input the call panics (`none`); an empty distribution is a valid
`GetZones` result (pool with zero matching nodes); and the driver passes
the re-fetched distribution to `FindMinAndMax` with no non-emptiness
check, so a cycle whose decision is positive but whose re-fetched target
distribution is empty panics. -/
theorem C10_findMinAndMax_empty_panics (env : CycleEnv) (fromName toName : String)
    (minNode : ℤ) (items : List Node)
    (h1 : env.nodesFrom = .ok items) (h2 : env.zonesToDecision.err = none)
    (h3 : env.zonesToDecision.zones.length ≠ 0)
    (h4 : rebalanceDecision items.length
      (items.length / env.zonesToDecision.zones.length) minNode = true)
    (h5 : env.zonesToShift.zones = []) :
    FindMinAndMax [] = none ∧
    (∀ poolName : String, GetZones [] poolName = []) ∧
    runCycle env fromName toName minNode = none := by
  refine ⟨rfl, fun poolName => rfl, ?_⟩
  simp [runCycle, h1, h2, goDiv, h3, h4, h5, FindMinAndMax]

/-- Witness for C10: decision positive (one source node, threshold 0, one
target zone at decision time), but the re-fetched target distribution is
empty — the cycle panics in `FindMinAndMax`. -/
theorem C10_findMinAndMax_empty_panics_witness :
    runCycle
      ⟨Except.ok [⟨"vm", "a"⟩], ⟨[1], none⟩, ⟨[], none⟩, ⟨[1], none⟩,
        ⟨none, ⟨[], none⟩, none⟩⟩
      "vm" "preempt" 0 = none :=
  (C10_findMinAndMax_empty_panics
    ⟨Except.ok [⟨"vm", "a"⟩], ⟨[1], none⟩, ⟨[], none⟩, ⟨[1], none⟩,
      ⟨none, ⟨[], none⟩, none⟩⟩
    "vm" "preempt" 0 [⟨"vm", "a"⟩] rfl rfl (by decide) (by decide) rfl).2.2

end Shifter
